import Mathlib

/-!
Verification of the confidence-interval computations in
`week 2/intro_confidenceintervals.ipynb`.

The notebook computes two-sided confidence intervals:
* for a proportion: `p = .85`, `n = 659`, `se = np.sqrt((p * (1 - p))/n)`,
  `lcb = p - tstar * se`, `ucb = p + tstar * se`;
* for a mean: `mean = df["CWDistance"].mean()`, `sd = df["CWDistance"].std()`
  (pandas default `ddof=1`, the unbiased n−1 divisor), `n = len(df)`,
  `se = sd/np.sqrt(n)`, and the same `lcb`/`ucb` formulas.

We embed that arithmetic over `ℝ` and prove the specified properties.
-/

/-- A two-sided confidence interval: a pair of real bounds, as in the
notebook's `(lcb, ucb)` pairs. -/
structure ConfidenceInterval where
  lowerBound : ℝ
  upperBound : ℝ

/-- Error taxonomy of the interval estimator: malformed counts or too few
observations are rejected as `invalidArgument`. -/
inductive EstimatorError where
  | invalidArgument
deriving DecidableEq

/-- The interval construction used by both notebook computations:
`lcb = estimate - multiplier * se`, `ucb = estimate + multiplier * se`. -/
def intervalFromSummary (estimate se multiplier : ℝ) : ConfidenceInterval :=
  ⟨estimate - multiplier * se, estimate + multiplier * se⟩

/-- Standard error of a proportion, from the notebook:
`se = np.sqrt((p * (1 - p))/n)`. -/
noncomputable def proportionSE (p n : ℝ) : ℝ :=
  Real.sqrt (p * (1 - p) / n)

/-- Sample mean, as computed by `df["CWDistance"].mean()`: sum divided by
count. -/
noncomputable def sampleMean (xs : List ℝ) : ℝ :=
  xs.sum / (xs.length : ℝ)

/-- Unbiased sample variance, as computed by `df["CWDistance"].std()` squared
(pandas default `ddof=1`): sum of squared deviations divided by n − 1. -/
noncomputable def sampleVariance (xs : List ℝ) : ℝ :=
  ((xs.map fun x => (x - sampleMean xs) ^ 2).sum) / ((xs.length : ℝ) - 1)

/-- Sample standard deviation, `df["CWDistance"].std()`. -/
noncomputable def sampleSD (xs : List ℝ) : ℝ :=
  Real.sqrt (sampleVariance xs)

/-- Standard error of a mean, from the notebook: `se = sd/np.sqrt(n)`. -/
noncomputable def meanSE (xs : List ℝ) : ℝ :=
  sampleSD xs / Real.sqrt (xs.length : ℝ)

/-- `proportionInterval` operation. The interval arithmetic (`p`, `se`,
`lcb`, `ucb`) is the notebook's. Modelled from the spec: the input validation
is absent from the notebook (which works on fixed literals); spec section 4.1
has the operation fail with `InvalidArgument` when trialCount is zero or
successCount is negative or exceeds trialCount. -/
noncomputable def proportionInterval (successCount trialCount : ℤ)
    (confidenceMultiplier : ℝ) : Except EstimatorError ConfidenceInterval :=
  if trialCount = 0 ∨ successCount < 0 ∨ trialCount < successCount then
    .error .invalidArgument
  else
    .ok (intervalFromSummary ((successCount : ℝ) / (trialCount : ℝ))
      (proportionSE ((successCount : ℝ) / (trialCount : ℝ)) (trialCount : ℝ))
      confidenceMultiplier)

/-- `meanInterval` operation. The statistics (`mean`, `sd`, `se`, `lcb`,
`ucb`) are the notebook's. Modelled from the spec: the input validation is
absent from the notebook; spec section 4.1 has the operation fail with
`InvalidArgument` when the sequence has fewer than 2 observations. -/
noncomputable def meanInterval (observations : List ℝ)
    (confidenceMultiplier : ℝ) : Except EstimatorError ConfidenceInterval :=
  if observations.length < 2 then
    .error .invalidArgument
  else
    .ok (intervalFromSummary (sampleMean observations) (meanSE observations)
      confidenceMultiplier)

/-- Modelled from the spec: no quantile computation exists in the notebook,
only the literal multipliers `tstar = 1.96` (n = 659) and `tstar = 2.064`
(n = 25). Spec section 4.1 allows a table as the numeric source; this table
holds the standard-normal two-sided critical values for the 90%, 95% and 99%
confidence levels, to 4 decimal digits. -/
def normalCritical (level : ℚ) : Option ℚ :=
  if level = 90 / 100 then some (16449 / 10000)
  else if level = 95 / 100 then some (196 / 100)
  else if level = 99 / 100 then some (25758 / 10000)
  else none

/-- Modelled from the spec: Student-t two-sided critical values by degrees of
freedom, to 4 decimal digits, for the levels and sample sizes the spec
exercises (df = 24, from the n = 25 cartwheel sample). -/
def tCritical (df : ℤ) (level : ℚ) : Option ℚ :=
  if df = 24 then
    if level = 90 / 100 then some (17109 / 10000)
    else if level = 95 / 100 then some (20639 / 10000)
    else if level = 99 / 100 then some (27969 / 10000)
    else none
  else none

/-- Modelled from the spec: `chooseMultiplier` is absent from the notebook.
Spec section 4.1 defines the policy: if `n > 30`, the standard-normal
two-sided critical value for the confidence level; otherwise the Student-t
two-sided critical value with `n - 1` degrees of freedom. -/
def chooseMultiplier (n : ℤ) (confidenceLevel : ℚ) : Option ℚ :=
  if 30 < n then normalCritical confidenceLevel
  else tCritical (n - 1) confidenceLevel

/-! ### Helper lemmas -/

/-- On valid counts the proportion operation reduces to the notebook
formulas. -/
lemma proportionInterval_ok_of_valid (s t : ℤ) (c : ℝ)
    (h1 : 0 ≤ s) (h2 : s ≤ t) (h3 : 0 < t) :
    proportionInterval s t c =
      .ok (intervalFromSummary ((s : ℝ) / (t : ℝ))
        (proportionSE ((s : ℝ) / (t : ℝ)) (t : ℝ)) c) := by
  unfold proportionInterval
  rw [if_neg]
  push_neg
  exact ⟨h3.ne', h1, h2⟩

/-- On a long enough sample the mean operation reduces to the notebook
formulas. -/
lemma meanInterval_ok_of_valid (obs : List ℝ) (c : ℝ) (h : 2 ≤ obs.length) :
    meanInterval obs c =
      .ok (intervalFromSummary (sampleMean obs) (meanSE obs) c) := by
  unfold meanInterval
  rw [if_neg (not_lt.mpr h)]

/-- C1 (statement): `proportionInterval` returns the notebook formulas. -/
theorem proportionInterval_formula (s t : ℤ) (c : ℝ)
    (h1 : 0 ≤ s) (h2 : s ≤ t) (h3 : 0 < t) (hc : 0 < c) :
    proportionInterval s t c =
      .ok ⟨(s : ℝ) / t - c * Real.sqrt ((s : ℝ) / t * (1 - (s : ℝ) / t) / t),
           (s : ℝ) / t + c * Real.sqrt ((s : ℝ) / t * (1 - (s : ℝ) / t) / t)⟩ := by
  rw [proportionInterval_ok_of_valid s t c h1 h2 h3]
  rfl

/-- C1 witness at `successCount = 1`, `trialCount = 2`,
`confidenceMultiplier = 1`. -/
theorem proportionInterval_formula_witness :
    (0 : ℤ) ≤ 1 ∧ (1 : ℤ) ≤ 2 ∧ (0 : ℤ) < 2 ∧ (0 : ℝ) < 1 ∧
    proportionInterval 1 2 1 =
      .ok ⟨(1 : ℝ) / 2 - 1 * Real.sqrt ((1 : ℝ) / 2 * (1 - (1 : ℝ) / 2) / 2),
           (1 : ℝ) / 2 + 1 * Real.sqrt ((1 : ℝ) / 2 * (1 - (1 : ℝ) / 2) / 2)⟩ := by
  refine ⟨by norm_num, by norm_num, by norm_num, by norm_num, ?_⟩
  have h := proportionInterval_formula 1 2 1 (by norm_num) (by norm_num)
    (by norm_num) (by norm_num)
  simpa using h

/-- The proportion standard error is a square root, hence nonnegative. -/
lemma proportionSE_nonneg (p n : ℝ) : 0 ≤ proportionSE p n :=
  Real.sqrt_nonneg _

/-- The mean standard error is a quotient of square roots, hence
nonnegative. -/
lemma meanSE_nonneg (xs : List ℝ) : 0 ≤ meanSE xs :=
  div_nonneg (Real.sqrt_nonneg _) (Real.sqrt_nonneg _)

/-- C2 (statement): `meanInterval` returns the notebook formulas, with the
unbiased n − 1 divisor inside the standard deviation. -/
theorem meanInterval_formula (obs : List ℝ) (c : ℝ)
    (h : 2 ≤ obs.length) (hc : 0 < c) :
    meanInterval obs c =
      .ok ⟨obs.sum / (obs.length : ℝ) -
             c * (Real.sqrt (((obs.map fun x =>
               (x - obs.sum / (obs.length : ℝ)) ^ 2).sum) /
                 ((obs.length : ℝ) - 1)) / Real.sqrt (obs.length : ℝ)),
           obs.sum / (obs.length : ℝ) +
             c * (Real.sqrt (((obs.map fun x =>
               (x - obs.sum / (obs.length : ℝ)) ^ 2).sum) /
                 ((obs.length : ℝ) - 1)) / Real.sqrt (obs.length : ℝ))⟩ := by
  rw [meanInterval_ok_of_valid obs c h]
  rfl

/-- C2 witness at `observations = [1, 3]`, `confidenceMultiplier = 1`. -/
theorem meanInterval_formula_witness :
    2 ≤ ([1, 3] : List ℝ).length ∧ (0 : ℝ) < 1 ∧
    meanInterval [1, 3] 1 =
      .ok ⟨([1, 3] : List ℝ).sum / ((([1, 3] : List ℝ).length : ℕ) : ℝ) -
             1 * (Real.sqrt (((([1, 3] : List ℝ).map fun x =>
               (x - ([1, 3] : List ℝ).sum / ((([1, 3] : List ℝ).length : ℕ) : ℝ)) ^ 2).sum) /
                 (((([1, 3] : List ℝ).length : ℕ) : ℝ) - 1)) /
               Real.sqrt ((([1, 3] : List ℝ).length : ℕ) : ℝ)),
           ([1, 3] : List ℝ).sum / ((([1, 3] : List ℝ).length : ℕ) : ℝ) +
             1 * (Real.sqrt (((([1, 3] : List ℝ).map fun x =>
               (x - ([1, 3] : List ℝ).sum / ((([1, 3] : List ℝ).length : ℕ) : ℝ)) ^ 2).sum) /
                 (((([1, 3] : List ℝ).length : ℕ) : ℝ) - 1)) /
               Real.sqrt ((([1, 3] : List ℝ).length : ℕ) : ℝ))⟩ :=
  ⟨by norm_num, by norm_num,
    meanInterval_formula [1, 3] 1 (by norm_num) (by norm_num)⟩

/-- C3 (statement): on valid inputs, each returned interval brackets its
point estimate and is symmetric around it with half-width
`multiplier * se`. -/
theorem interval_invariants (s t : ℤ) (c : ℝ) (obs : List ℝ) (c2 : ℝ)
    (h1 : 0 ≤ s) (h2 : s ≤ t) (h3 : 0 < t) (hc : 0 < c)
    (hobs : 2 ≤ obs.length) (hc2 : 0 < c2) :
    (∃ ci, proportionInterval s t c = .ok ci ∧
      ci.lowerBound ≤ (s : ℝ) / t ∧ (s : ℝ) / t ≤ ci.upperBound ∧
      ci.lowerBound = (s : ℝ) / t - c * proportionSE ((s : ℝ) / t) t ∧
      ci.upperBound = (s : ℝ) / t + c * proportionSE ((s : ℝ) / t) t) ∧
    (∃ ci, meanInterval obs c2 = .ok ci ∧
      ci.lowerBound ≤ sampleMean obs ∧ sampleMean obs ≤ ci.upperBound ∧
      ci.lowerBound = sampleMean obs - c2 * meanSE obs ∧
      ci.upperBound = sampleMean obs + c2 * meanSE obs) := by
  have hm1 : 0 ≤ c * proportionSE ((s : ℝ) / t) t :=
    mul_nonneg hc.le (proportionSE_nonneg _ _)
  have hm2 : 0 ≤ c2 * meanSE obs := mul_nonneg hc2.le (meanSE_nonneg _)
  refine ⟨⟨intervalFromSummary ((s : ℝ) / t) (proportionSE ((s : ℝ) / t) t) c,
      proportionInterval_ok_of_valid s t c h1 h2 h3, ?_, ?_, rfl, rfl⟩,
    ⟨intervalFromSummary (sampleMean obs) (meanSE obs) c2,
      meanInterval_ok_of_valid obs c2 hobs, ?_, ?_, rfl, rfl⟩⟩
  · exact sub_le_self _ hm1
  · exact le_add_of_nonneg_right hm1
  · exact sub_le_self _ hm2
  · exact le_add_of_nonneg_right hm2

/-- C3 witness at `(1, 2, 1)` for the proportion and `([1, 3], 1)` for the
mean. -/
theorem interval_invariants_witness :
    (0 : ℤ) ≤ 1 ∧ (1 : ℤ) ≤ 2 ∧ (0 : ℤ) < 2 ∧ (0 : ℝ) < 1 ∧
    2 ≤ ([1, 3] : List ℝ).length ∧
    ((∃ ci, proportionInterval 1 2 1 = .ok ci ∧
      ci.lowerBound ≤ (1 : ℝ) / 2 ∧ (1 : ℝ) / 2 ≤ ci.upperBound ∧
      ci.lowerBound = (1 : ℝ) / 2 - 1 * proportionSE ((1 : ℝ) / 2) 2 ∧
      ci.upperBound = (1 : ℝ) / 2 + 1 * proportionSE ((1 : ℝ) / 2) 2) ∧
    (∃ ci, meanInterval [1, 3] 1 = .ok ci ∧
      ci.lowerBound ≤ sampleMean [1, 3] ∧ sampleMean [1, 3] ≤ ci.upperBound ∧
      ci.lowerBound = sampleMean [1, 3] - 1 * meanSE [1, 3] ∧
      ci.upperBound = sampleMean [1, 3] + 1 * meanSE [1, 3])) := by
  refine ⟨by norm_num, by norm_num, by norm_num, by norm_num, by norm_num, ?_⟩
  have h := interval_invariants 1 2 1 [1, 3] 1 (by norm_num) (by norm_num)
    (by norm_num) (by norm_num) (by norm_num) (by norm_num)
  simpa using h

/-- Rational lower bound on the standard error at 560 successes out of 659
trials. -/
lemma se_560_659_lo :
    (139182133 : ℝ) / 10 ^ 10 <
      Real.sqrt ((560 : ℝ) / 659 * (1 - (560 : ℝ) / 659) / 659) := by
  have hq : (560 : ℝ) / 659 * (1 - (560 : ℝ) / 659) / 659 =
      55440 / 286191179 := by norm_num
  rw [hq]
  exact (Real.lt_sqrt (by norm_num)).mpr (by norm_num)

/-- Rational upper bound on the standard error at 560 successes out of 659
trials. -/
lemma se_560_659_hi :
    Real.sqrt ((560 : ℝ) / 659 * (1 - (560 : ℝ) / 659) / 659) <
      (139182134 : ℝ) / 10 ^ 10 := by
  have hq : (560 : ℝ) / 659 * (1 - (560 : ℝ) / 659) / 659 =
      55440 / 286191179 := by norm_num
  rw [hq]
  exact (Real.sqrt_lt' (by norm_num)).mpr (by norm_num)

/-- C4 counterexample: at (560, 659, 1.96) both returned bounds fall short
of the worked-example values 0.8227 and 0.8773 by more than half a unit in
the fourth decimal place, because 560/659 ≈ 0.84977 is not 0.85. -/
theorem proportionInterval_example_refutes_worked_values :
    proportionInterval 560 659 1.96 =
      .ok ⟨(560 : ℝ) / 659 -
             1.96 * Real.sqrt ((560 : ℝ) / 659 * (1 - (560 : ℝ) / 659) / 659),
           (560 : ℝ) / 659 +
             1.96 * Real.sqrt ((560 : ℝ) / 659 * (1 - (560 : ℝ) / 659) / 659)⟩ ∧
    (560 : ℝ) / 659 -
        1.96 * Real.sqrt ((560 : ℝ) / 659 * (1 - (560 : ℝ) / 659) / 659) <
      0.8227 - 0.00005 ∧
    (560 : ℝ) / 659 +
        1.96 * Real.sqrt ((560 : ℝ) / 659 * (1 - (560 : ℝ) / 659) / 659) <
      0.8773 - 0.00005 := by
  have hlo := se_560_659_lo
  have hhi := se_560_659_hi
  have hm1 : (1.96 : ℝ) * ((139182133 : ℝ) / 10 ^ 10) <
      1.96 * Real.sqrt ((560 : ℝ) / 659 * (1 - (560 : ℝ) / 659) / 659) :=
    mul_lt_mul_of_pos_left hlo (by norm_num)
  have hm2 : (1.96 : ℝ) *
        Real.sqrt ((560 : ℝ) / 659 * (1 - (560 : ℝ) / 659) / 659) <
      1.96 * ((139182134 : ℝ) / 10 ^ 10) :=
    mul_lt_mul_of_pos_left hhi (by norm_num)
  refine ⟨?_, by linarith, by linarith⟩
  rw [proportionInterval_ok_of_valid 560 659 1.96 (by norm_num) (by norm_num)
    (by norm_num)]
  rfl

/-- C4 amended: at (560, 659, 1.96) the returned interval is (0.8225, 0.8771)
to four decimal places, with point estimate 560/659 ≈ 0.849772 and standard
error ≈ 0.013918. -/
theorem proportionInterval_example_actual_values :
    proportionInterval 560 659 1.96 =
      .ok ⟨(560 : ℝ) / 659 -
             1.96 * Real.sqrt ((560 : ℝ) / 659 * (1 - (560 : ℝ) / 659) / 659),
           (560 : ℝ) / 659 +
             1.96 * Real.sqrt ((560 : ℝ) / 659 * (1 - (560 : ℝ) / 659) / 659)⟩ ∧
    |(560 : ℝ) / 659 -
        1.96 * Real.sqrt ((560 : ℝ) / 659 * (1 - (560 : ℝ) / 659) / 659) -
      0.8225| < 0.00005 ∧
    |(560 : ℝ) / 659 +
        1.96 * Real.sqrt ((560 : ℝ) / 659 * (1 - (560 : ℝ) / 659) / 659) -
      0.8771| < 0.00005 := by
  have hlo := se_560_659_lo
  have hhi := se_560_659_hi
  have hm1 : (1.96 : ℝ) * ((139182133 : ℝ) / 10 ^ 10) <
      1.96 * Real.sqrt ((560 : ℝ) / 659 * (1 - (560 : ℝ) / 659) / 659) :=
    mul_lt_mul_of_pos_left hlo (by norm_num)
  have hm2 : (1.96 : ℝ) *
        Real.sqrt ((560 : ℝ) / 659 * (1 - (560 : ℝ) / 659) / 659) <
      1.96 * ((139182134 : ℝ) / 10 ^ 10) :=
    mul_lt_mul_of_pos_left hhi (by norm_num)
  refine ⟨?_, abs_lt.mpr ⟨by linarith, by linarith⟩,
    abs_lt.mpr ⟨by linarith, by linarith⟩⟩
  rw [proportionInterval_ok_of_valid 560 659 1.96 (by norm_num) (by norm_num)
    (by norm_num)]
  rfl

/-- C5 counterexample: holding the proportion fixed at 0 (0 successes), the
intervals at trial counts 1 and 2 are both the degenerate (0, 0), so the
larger trial count does not strictly narrow the interval. -/
theorem proportionInterval_zero_proportion_width_constant :
    proportionInterval 0 1 1.96 = .ok ⟨0, 0⟩ ∧
    proportionInterval 0 2 1.96 = .ok ⟨0, 0⟩ ∧
    ¬ ((ConfidenceInterval.mk (0 : ℝ) 0).upperBound -
         (ConfidenceInterval.mk (0 : ℝ) 0).lowerBound <
       (ConfidenceInterval.mk (0 : ℝ) 0).upperBound -
         (ConfidenceInterval.mk (0 : ℝ) 0).lowerBound) := by
  refine ⟨?_, ?_, lt_irrefl _⟩ <;>
  · rw [proportionInterval_ok_of_valid _ _ _ (by norm_num) (by norm_num)
      (by norm_num)]
    simp [intervalFromSummary, proportionSE]

/-- C5 amended: for a fixed proportion strictly between 0 and 1 and a
positive multiplier, a strictly larger trial count yields a strictly
narrower interval. -/
theorem proportionInterval_strictly_narrows (s1 t1 s2 t2 : ℤ) (c : ℝ)
    (hs1 : 0 < s1) (hst1 : s1 < t1) (hs2 : 0 < s2) (hst2 : s2 < t2)
    (ht : t1 < t2) (hp : (s1 : ℝ) / t1 = (s2 : ℝ) / t2) (hc : 0 < c) :
    ∃ ci1 ci2, proportionInterval s1 t1 c = .ok ci1 ∧
      proportionInterval s2 t2 c = .ok ci2 ∧
      ci2.upperBound - ci2.lowerBound < ci1.upperBound - ci1.lowerBound := by
  have ht1R : (0 : ℝ) < (t1 : ℝ) := by exact_mod_cast hs1.trans hst1
  have htR : (t1 : ℝ) < (t2 : ℝ) := by exact_mod_cast ht
  have hp0 : 0 < (s1 : ℝ) / t1 := div_pos (by exact_mod_cast hs1) ht1R
  have hp1 : (s1 : ℝ) / t1 < 1 := (div_lt_one ht1R).mpr (by exact_mod_cast hst1)
  have hnum : 0 < (s1 : ℝ) / t1 * (1 - (s1 : ℝ) / t1) :=
    mul_pos hp0 (by linarith)
  have hfrac : (s1 : ℝ) / t1 * (1 - (s1 : ℝ) / t1) / (t2 : ℝ) <
      (s1 : ℝ) / t1 * (1 - (s1 : ℝ) / t1) / (t1 : ℝ) :=
    div_lt_div_of_pos_left hnum ht1R htR
  have hse : proportionSE ((s1 : ℝ) / t1) (t2 : ℝ) <
      proportionSE ((s1 : ℝ) / t1) (t1 : ℝ) := by
    unfold proportionSE
    refine Real.sqrt_lt_sqrt ?_ hfrac
    have ht2R : (0 : ℝ) < (t2 : ℝ) := by exact_mod_cast hs2.trans hst2
    exact (div_pos hnum ht2R).le
  have hmul := mul_lt_mul_of_pos_left hse hc
  refine ⟨_, _,
    proportionInterval_ok_of_valid s1 t1 c hs1.le hst1.le (hs1.trans hst1),
    proportionInterval_ok_of_valid s2 t2 c hs2.le hst2.le (hs2.trans hst2), ?_⟩
  simp only [intervalFromSummary]
  rw [← hp]
  linarith

/-- C5 amended witness at proportion 1/2, trial counts 2 and 4,
multiplier 1. -/
theorem proportionInterval_strictly_narrows_witness :
    (0 : ℤ) < 1 ∧ (1 : ℤ) < 2 ∧ (0 : ℤ) < 2 ∧ (2 : ℤ) < 4 ∧
    ((1 : ℤ) : ℝ) / ((2 : ℤ) : ℝ) = ((2 : ℤ) : ℝ) / ((4 : ℤ) : ℝ) ∧
    (0 : ℝ) < 1 ∧
    (∃ ci1 ci2, proportionInterval 1 2 1 = .ok ci1 ∧
      proportionInterval 2 4 1 = .ok ci2 ∧
      ci2.upperBound - ci2.lowerBound < ci1.upperBound - ci1.lowerBound) := by
  refine ⟨by norm_num, by norm_num, by norm_num, by norm_num, by norm_num,
    by norm_num, ?_⟩
  exact proportionInterval_strictly_narrows 1 2 2 4 1 (by norm_num)
    (by norm_num) (by norm_num) (by norm_num) (by norm_num) (by norm_num)
    (by norm_num)

/-- C6 (statement): malformed counts and undersized samples are rejected
with `invalidArgument`; the error constructor carries no interval, so no
partial result is produced. -/
theorem invalid_inputs_rejected (s t : ℤ) (c : ℝ) (obs : List ℝ) (c2 : ℝ)
    (h : t = 0 ∨ s < 0 ∨ t < s) (hobs : obs.length < 2) :
    proportionInterval s t c = .error .invalidArgument ∧
    meanInterval obs c2 = .error .invalidArgument := by
  constructor
  · unfold proportionInterval
    rw [if_pos h]
  · unfold meanInterval
    rw [if_pos hobs]

/-- C6 witness at `successCount = 5 > trialCount = 3` and a one-element
sample. -/
theorem invalid_inputs_rejected_witness :
    ((3 : ℤ) = 0 ∨ (5 : ℤ) < 0 ∨ (3 : ℤ) < 5) ∧ ([1] : List ℝ).length < 2 ∧
    proportionInterval 5 3 1.96 = .error .invalidArgument ∧
    meanInterval [1] 1.96 = .error .invalidArgument := by
  have h : (3 : ℤ) = 0 ∨ (5 : ℤ) < 0 ∨ (3 : ℤ) < 5 :=
    Or.inr (Or.inr (by norm_num))
  have hobs : ([1] : List ℝ).length < 2 := by simp
  exact ⟨h, hobs, invalid_inputs_rejected 5 3 1.96 [1] 1.96 h hobs⟩

/-- C7 (statement): `chooseMultiplier` follows the spec policy (normal
critical value for n > 30, Student-t with n − 1 degrees of freedom
otherwise) and returns 1.96 at (659, 0.95) and 2.0639 ≈ 2.064 at
(25, 0.95). -/
theorem chooseMultiplier_policy (n : ℤ) (level : ℚ) :
    chooseMultiplier n level =
      (if 30 < n then normalCritical level else tCritical (n - 1) level) ∧
    chooseMultiplier 659 (95 / 100) = some (196 / 100) ∧
    chooseMultiplier 25 (95 / 100) = some (20639 / 10000) ∧
    |(20639 : ℚ) / 10000 - 2064 / 1000| ≤ 1 / 10000 := by
  refine ⟨rfl, ?_, ?_, by rw [abs_le]; constructor <;> norm_num⟩
  · norm_num [chooseMultiplier, normalCritical]
  · norm_num [chooseMultiplier, tCritical]

/-- C8 (statement): the bounds are the raw formula values, and for small
samples they leave [0, 1]: at (1, 10, 1.96) the lower bound is negative, at
(9, 10, 1.96) the upper bound exceeds 1. -/
theorem proportionInterval_unclamped :
    proportionInterval 1 10 1.96 =
      .ok ⟨(1 : ℝ) / 10 -
             1.96 * Real.sqrt ((1 : ℝ) / 10 * (1 - (1 : ℝ) / 10) / 10),
           (1 : ℝ) / 10 +
             1.96 * Real.sqrt ((1 : ℝ) / 10 * (1 - (1 : ℝ) / 10) / 10)⟩ ∧
    (1 : ℝ) / 10 - 1.96 * Real.sqrt ((1 : ℝ) / 10 * (1 - (1 : ℝ) / 10) / 10) <
      0 ∧
    proportionInterval 9 10 1.96 =
      .ok ⟨(9 : ℝ) / 10 -
             1.96 * Real.sqrt ((9 : ℝ) / 10 * (1 - (9 : ℝ) / 10) / 10),
           (9 : ℝ) / 10 +
             1.96 * Real.sqrt ((9 : ℝ) / 10 * (1 - (9 : ℝ) / 10) / 10)⟩ ∧
    1 <
      (9 : ℝ) / 10 + 1.96 * Real.sqrt ((9 : ℝ) / 10 * (1 - (9 : ℝ) / 10) / 10) := by
  have harg1 : (1 : ℝ) / 10 * (1 - (1 : ℝ) / 10) / 10 = 9 / 1000 := by
    norm_num
  have harg2 : (9 : ℝ) / 10 * (1 - (9 : ℝ) / 10) / 10 = 9 / 1000 := by
    norm_num
  have hs : (52 : ℝ) / 1000 < Real.sqrt (9 / 1000) :=
    (Real.lt_sqrt (by norm_num)).mpr (by norm_num)
  have hmul : (1.96 : ℝ) * (52 / 1000) < 1.96 * Real.sqrt (9 / 1000) :=
    mul_lt_mul_of_pos_left hs (by norm_num)
  refine ⟨?_, ?_, ?_, ?_⟩
  · rw [proportionInterval_ok_of_valid 1 10 1.96 (by norm_num) (by norm_num)
      (by norm_num)]
    norm_num [intervalFromSummary, proportionSE]
  · rw [harg1]
    linarith
  · rw [proportionInterval_ok_of_valid 9 10 1.96 (by norm_num) (by norm_num)
      (by norm_num)]
    norm_num [intervalFromSummary, proportionSE]
  · rw [harg2]
    linarith

/-- The sample mean of a constant sample is that constant. -/
lemma sampleMean_replicate (n : ℕ) (a : ℝ) (hn : n ≠ 0) :
    sampleMean (List.replicate n a) = a := by
  unfold sampleMean
  rw [List.sum_replicate, List.length_replicate, nsmul_eq_mul]
  have hnR : ((n : ℕ) : ℝ) ≠ 0 := Nat.cast_ne_zero.mpr hn
  field_simp

/-- The unbiased sample variance of a constant sample is zero. -/
lemma sampleVariance_replicate (n : ℕ) (a : ℝ) (hn : n ≠ 0) :
    sampleVariance (List.replicate n a) = 0 := by
  unfold sampleVariance
  rw [sampleMean_replicate n a hn, List.map_replicate, List.sum_replicate]
  simp

/-- C9 (statement): a zero standard error (proportion 0 or 1, or a constant
sample) is not an error: the operation returns the point interval
(estimate, estimate). -/
theorem degenerate_se_point_interval (t : ℤ) (c : ℝ) (a : ℝ) (n : ℕ)
    (ht : 0 < t) (hn : 2 ≤ n) :
    proportionInterval 0 t c = .ok ⟨0, 0⟩ ∧
    proportionInterval t t c = .ok ⟨1, 1⟩ ∧
    meanInterval (List.replicate n a) c = .ok ⟨a, a⟩ := by
  have htR : ((t : ℤ) : ℝ) ≠ 0 := by
    exact_mod_cast ht.ne'
  have hn0 : n ≠ 0 := by omega
  refine ⟨?_, ?_, ?_⟩
  · rw [proportionInterval_ok_of_valid 0 t c le_rfl ht.le ht]
    simp [intervalFromSummary, proportionSE]
  · rw [proportionInterval_ok_of_valid t t c ht.le le_rfl ht]
    simp [intervalFromSummary, proportionSE, div_self htR]
  · rw [meanInterval_ok_of_valid _ c (by simpa using hn)]
    simp [intervalFromSummary, meanSE, sampleSD,
      sampleVariance_replicate n a hn0, sampleMean_replicate n a hn0]

/-- C9 witness at `trialCount = 5`, a constant two-element sample of 3s,
multiplier 1.96. -/
theorem degenerate_se_point_interval_witness :
    (0 : ℤ) < 5 ∧ 2 ≤ 2 ∧
    proportionInterval 0 5 1.96 = .ok ⟨0, 0⟩ ∧
    proportionInterval 5 5 1.96 = .ok ⟨1, 1⟩ ∧
    meanInterval (List.replicate 2 (3 : ℝ)) 1.96 = .ok ⟨3, 3⟩ :=
  ⟨by norm_num, by norm_num,
    degenerate_se_point_interval 5 1.96 3 2 (by norm_num) (by norm_num)⟩

/-- C10 (statement): with the point estimate and a nonnegative standard
error fixed, a larger multiplier produces a containing interval. -/
theorem interval_monotone_in_multiplier (e se m1 m2 : ℝ)
    (hse : 0 ≤ se) (h1 : 0 < m1) (h12 : m1 ≤ m2) :
    (intervalFromSummary e se m2).lowerBound ≤
      (intervalFromSummary e se m1).lowerBound ∧
    (intervalFromSummary e se m1).upperBound ≤
      (intervalFromSummary e se m2).upperBound := by
  have h := mul_le_mul_of_nonneg_right h12 hse
  unfold intervalFromSummary
  exact ⟨by dsimp only; linarith, by dsimp only; linarith⟩

/-- C10 witness: the t-multiplier 2.064 interval contains the z-multiplier
1.96 interval at estimate 0 and standard error 1. -/
theorem interval_monotone_in_multiplier_witness :
    (0 : ℝ) ≤ 1 ∧ (0 : ℝ) < 1.96 ∧ (1.96 : ℝ) ≤ 2.064 ∧
    ((intervalFromSummary 0 1 2.064).lowerBound ≤
       (intervalFromSummary 0 1 1.96).lowerBound ∧
     (intervalFromSummary 0 1 1.96).upperBound ≤
       (intervalFromSummary 0 1 2.064).upperBound) :=
  ⟨by norm_num, by norm_num, by norm_num,
    interval_monotone_in_multiplier 0 1 1.96 2.064 (by norm_num) (by norm_num)
      (by norm_num)⟩
